import Mathlib

/-!
# Verification of the open-remote-distrobox session lifecycle manager

This file is a shallow embedding of the session lifecycle manager of the
`open-remote-distrobox` extension:

* the bash control script generated by `get_control_script` in `src/setup.ts`
  (functions `connect_server`, `disconnect_server`, `start_server`,
  `stop_server`, `connect_or_start_server`, and the command dispatcher with
  its `synchronized-*` `flock` wrappers);
* the platform detector `detect_platform` / `linux_arch_to_nodejs_arch`
  in `src/setup.ts`;
* the session identifier construction `system_identifier` in `src/remote.ts`
  together with the session directory computed in
  `RemoteAuthorityResolver.resolve`;
* the orchestration logic of `RemoteAuthorityResolver.resolve` itself.

Conventions: session state files are modelled as `Option` values (`none` =
file absent); the outside world (process liveness, TCP listeners) is an
explicit environment; every controller operation additionally produces an
event trace annotated with whether the advisory `flock` lock was held,
which lets us reason about the locking discipline.
-/

set_option maxHeartbeats 1000000

/-- The per-session files kept in the session directory (see the
`# session files` block of the control script): `port`, `count`, `pid1`,
`pid2`, plus the diagnostic `log` file (tracked only by presence).
`none` means the file does not exist. The advisory lock is `flock` on the
session *directory* itself, so it is not a tracked file. -/
structure SessionFiles where
  port  : Option Nat
  count : Option Int
  pid1  : Option Nat
  pid2  : Option Nat
  log   : Bool
  deriving Repr, DecidableEq

/-- The environment the script probes: which pids are alive (`kill -0`) and
which pid is bound to each TCP port (`lsof -iTCP:<port> -sTCP:LISTEN -t`). -/
structure World where
  alive : Nat → Bool
  bound : Nat → Option Nat

/-- Model of `kill <pid>`: best-effort signal; a dead or unknown pid is unaffected and
the script discards the exit status (`2>/dev/null`, no error check). -/
def World.kill (w : World) (p : Nat) : World :=
  { w with alive := fun q => if q = p then false else w.alive q }

/-- Identifiers of the session files, for the event trace. -/
inductive FId where
  | port | count | pid1 | pid2 | log
  deriving Repr, DecidableEq

/-- Events performed by the control script. `sleep` durations are in tenths
of a second (the poll loop sleeps 0.1s, grace periods are whole seconds). -/
inductive Ev where
  | sleep (tenths : Nat)
  | write (f : FId)
  | remove (f : FId)
  | kill (pid : Nat)
  deriving Repr, DecidableEq

/-- Result of running one control-script operation: the session files and
world afterwards, the single line printed to stdout (without the trailing
newline, as captured by `$(...)` / `exec`), and the event trace, each event
tagged with whether the `flock` lock on the session directory was held. -/
structure OpResult where
  files : SessionFiles
  world : World
  out   : String
  trace : List (Ev × Bool)

/-- Model of `stop_server` of the control script: signal the recorded `pid2` then
`pid1` if their files exist (ignoring failures), then
`rm -f "$PORT_FILE" "$COUNT_FILE" "$PID1_FILE" "$PID2_FILE"`.
The `log` file and the lock are untouched. Prints nothing. -/
def stop_server (held : Bool) (s : SessionFiles) (w : World) : OpResult :=
  let step2 : World × List (Ev × Bool) :=
    match s.pid2 with
    | some p => (w.kill p, [(Ev.kill p, held)])
    | none => (w, [])
  let step1 : World × List (Ev × Bool) :=
    match s.pid1 with
    | some p => (step2.1.kill p, step2.2 ++ [(Ev.kill p, held)])
    | none => step2
  { files := { s with port := none, count := none, pid1 := none, pid2 := none },
    world := step1.1,
    out := "",
    trace := step1.2 ++ [(Ev.remove FId.port, held), (Ev.remove FId.count, held),
      (Ev.remove FId.pid1, held), (Ev.remove FId.pid2, held)] }

/-- The port verification inside `connect_server`: the string comparison
`[[ "$(lsof -iTCP:$(cat "$PORT_FILE") -sTCP:LISTEN -t)" != "$(cat "$PID2_FILE")" ]]`.
It holds (port verified) when the single listener pid on the recorded port
equals the recorded `pid2`; with no recorded port the comparison of the
`lsof` output against the pid cannot succeed. -/
def port_bound_by (w : World) (port : Option Nat) (p2 : Nat) : Bool :=
  match port with
  | some pt => w.bound pt = some p2
  | none => false

/-- Model of `connect_server` of the control script: if the `pid2` file exists and the
recorded worker is alive (`kill -0`), then either the port is not actually
bound by that worker — `stop_server` and print `STALE` — or increment the
use count and print the recorded port. Otherwise print `NOT RUNNING`
(without touching any file). -/
def connect_server (held : Bool) (s : SessionFiles) (w : World) : OpResult :=
  match s.pid2 with
  | some p2 =>
    if w.alive p2 then
      if !(port_bound_by w s.port p2) then
        let r := stop_server held s w
        { r with out := "STALE" }
      else
        let c : Int := s.count.getD 0 + 1
        { files := { s with count := some c },
          world := w,
          out := match s.port with | some pt => toString pt | none => "",
          trace := [(Ev.write FId.count, held)] }
    else
      { files := s, world := w, out := "NOT RUNNING", trace := [] }
  | none => { files := s, world := w, out := "NOT RUNNING", trace := [] }

/-- Model of `disconnect_server` of the control script: `sleep "$1"` (grace period),
then if the `count` file exists decrement it, write it back, and if the new
count equals zero run `stop_server`; if the `count` file does not exist
print `NOT CONNECTED`. -/
def disconnect_server (grace : Nat) (held : Bool) (s : SessionFiles) (w : World) : OpResult :=
  let sleep_ev : Ev × Bool := (Ev.sleep (10 * grace), held)
  match s.count with
  | some c =>
    let c₁ : Int := c - 1
    let s₁ : SessionFiles := { s with count := some c₁ }
    if c₁ = 0 then
      let r := stop_server held s₁ w
      { r with trace := sleep_ev :: (Ev.write FId.count, held) :: r.trace }
    else
      { files := s₁, world := w, out := "",
        trace := [sleep_ev, (Ev.write FId.count, held)] }
  | none =>
    { files := s, world := w, out := "NOT CONNECTED", trace := [sleep_ev] }

/-- Environment for `start_server`: the pid `$!` of the `nohup`-launched
wrapper process, the `ps --ppid $PID1 --format pid=` lookup of its actual
child, and for each poll iteration `i` the port number the
`sed -n 's/.*Extension host agent listening on \([0-9]\+\).*/\1/p'`
extraction yields from the captured log (`none` = empty output). -/
structure StartEnv where
  pid1 : Nat
  child_of : Nat → Nat
  extract : Nat → Option Nat

/-- The poll loop of `start_server`: up to `budget` iterations, stopping at
the first one where the log extraction is non-empty. -/
def poll_port (extract : Nat → Option Nat) (budget : Nat) : Option Nat :=
  (List.range budget).findSome? extract

/-- Model of `start_server` of the control script: launch the server detached
(truncating the log file), poll the log up to `budget` times; on success
write `count=1`, `pid1`, `pid2` (the wrapper's child found via `ps --ppid`)
and `port`, and print the port; on timeout run `stop_server` and print
`ERROR`. (The poll-loop `sleep 0.1` events are omitted from the trace; they
happen under the same lock state as the launch.) -/
def start_server (budget : Nat) (e : StartEnv) (held : Bool) (s : SessionFiles)
    (w : World) : OpResult :=
  let launch : List (Ev × Bool) := [(Ev.write FId.log, held)]
  match poll_port e.extract budget with
  | some pt =>
    { files :=
        { s with
          count := some 1
          pid1 := some e.pid1
          pid2 := some (e.child_of e.pid1)
          port := some pt
          log := true },
      world := w,
      out := toString pt,
      trace := launch ++ [(Ev.write FId.count, held), (Ev.write FId.pid1, held),
        (Ev.write FId.pid2, held), (Ev.write FId.port, held)] }
  | none =>
    let r := stop_server held s w
    { files := { r.files with log := true }, world := r.world, out := "ERROR",
      trace := launch ++ r.trace }

/-- The bash test `[[ "$PORT" =~ ^[0-9]+$ ]]` in `connect_or_start_server`:
the captured output is a non-empty string of decimal digits. -/
def digits_line (s : String) : Bool :=
  !s.isEmpty && s.data.all (fun c => c.isDigit)

/-- Model of `connect_or_start_server` of the control script: capture
`PORT=$(connect_server)`; if it is all digits echo it, otherwise fall
through to `start_server 10`. -/
def connect_or_start_server (e : StartEnv) (held : Bool) (s : SessionFiles)
    (w : World) : OpResult :=
  let r := connect_server held s w
  if digits_line r.out then
    r
  else
    let r₂ := start_server 10 e held r.files r.world
    { r₂ with trace := r.trace ++ r₂.trace }

/-- The control script's command-line dispatch (the `case "$1" in` block).
`Option Nat` arguments model the `"${2:-default}"` defaults. -/
inductive Cmd where
  | connect
  | disconnect (grace : Option Nat)
  | start (budget : Option Nat)
  | stop
  | connect_or_start
  | sync_connect
  | sync_disconnect (grace : Option Nat)
  | sync_start

/-- Run one invocation of the control script. The plain subcommands run
without the lock; the `synchronized-*` subcommands re-invoke the script
under `flock -o "$SESSION_DIR"`, so their bodies run with the lock held.
`synchronized-disconnect` performs `sleep ${2:-5}` *before* `flock`, then
runs `disconnect 0` under the lock. -/
def run_script (c : Cmd) (e : StartEnv) (s : SessionFiles) (w : World) : OpResult :=
  match c with
  | .connect => connect_server false s w
  | .disconnect g => disconnect_server (g.getD 0) false s w
  | .start b => start_server (b.getD 10) e false s w
  | .stop => stop_server false s w
  | .connect_or_start => connect_or_start_server e false s w
  | .sync_connect => connect_server true s w
  | .sync_disconnect g =>
    let r := disconnect_server 0 true s w
    { r with trace := (Ev.sleep (10 * g.getD 5), false) :: r.trace }
  | .sync_start => connect_or_start_server e true s w

/-- All four refcount-relevant session state files are absent. -/
def all_absent (s : SessionFiles) : Prop :=
  s.port = none ∧ s.count = none ∧ s.pid1 = none ∧ s.pid2 = none

instance (s : SessionFiles) : Decidable (all_absent s) := by
  unfold all_absent; infer_instance

/-- The refcount: the value of the `count` file, 0 when absent. -/
def refcount (s : SessionFiles) : Int := s.count.getD 0

/-- Session invariant: either all four state files are absent, or the count
file holds a value ≥ 1 and `port`, `pid1`, `pid2` are all present. -/
def SessionInv (s : SessionFiles) : Prop :=
  all_absent s ∨
    (∃ n : Int, 1 ≤ n ∧ s.count = some n ∧
      s.port.isSome ∧ s.pid1.isSome ∧ s.pid2.isSome)

/-- The empty session directory (fresh, no state files). -/
def empty_session : SessionFiles :=
  { port := none, count := none, pid1 := none, pid2 := none, log := false }

/-- Session-file states reachable by any finite sequence of control-script
invocations starting from an empty session directory, with an arbitrary
world at each step (processes may die or appear between invocations). -/
inductive Reachable : SessionFiles → Prop where
  | init : Reachable empty_session
  | step (c : Cmd) (e : StartEnv) (w : World) {s : SessionFiles} :
      Reachable s → Reachable (run_script c e s w).files

theorem stop_files (held : Bool) (s : SessionFiles) (w : World) :
    (stop_server held s w).files =
      { s with port := none, count := none, pid1 := none, pid2 := none } := rfl

theorem inv_stop (held : Bool) (s : SessionFiles) (w : World) :
    SessionInv (stop_server held s w).files := by
  left
  simp [stop_files, all_absent]

theorem inv_connect (held : Bool) (s : SessionFiles) (w : World)
    (h : SessionInv s) : SessionInv (connect_server held s w).files := by
  unfold connect_server
  rcases hp : s.pid2 with _ | p2
  · simpa [hp] using h
  · simp only [hp]
    by_cases ha : w.alive p2
    · by_cases hb : port_bound_by w s.port p2
      · rcases h with habs | ⟨n, hn1, hc, hport, hpid1, hpid2⟩
        · exact absurd habs.2.2.2 (by simp [hp])
        · simp only [ha, hb, if_true, Bool.not_true, if_neg]
          right
          exact ⟨n + 1, by omega, by simp [hc], by simpa using hport,
            by simpa using hpid1, by simp [hp]⟩
      · simpa [ha, hb] using inv_stop held s w
    · simpa [ha] using h

theorem inv_disconnect (grace : Nat) (held : Bool) (s : SessionFiles) (w : World)
    (h : SessionInv s) : SessionInv (disconnect_server grace held s w).files := by
  unfold disconnect_server
  rcases hc : s.count with _ | c
  · simpa [hc] using h
  · simp only [hc]
    by_cases hz : (c - 1 : Int) = 0
    · simpa [hz] using inv_stop held _ w
    · simp only [hz, if_neg, if_false]
      rcases h with habs | ⟨n, hn1, hcn, hport, hpid1, hpid2⟩
      · exact absurd habs.2.1 (by simp [hc])
      · right
        rw [hc] at hcn
        injection hcn with hnc
        subst hnc
        exact ⟨c - 1, by omega, by simp, by simpa using hport,
          by simpa using hpid1, by simpa using hpid2⟩

theorem inv_start (budget : Nat) (e : StartEnv) (held : Bool) (s : SessionFiles)
    (w : World) : SessionInv (start_server budget e held s w).files := by
  rcases hp : poll_port e.extract budget with _ | pt
  · left
    simp [start_server, hp, stop_files, all_absent]
  · right
    exact ⟨1, le_refl 1, by simp [start_server, hp], by simp [start_server, hp],
      by simp [start_server, hp], by simp [start_server, hp]⟩

theorem inv_connect_or_start (e : StartEnv) (held : Bool) (s : SessionFiles)
    (w : World) (h : SessionInv s) :
    SessionInv (connect_or_start_server e held s w).files := by
  unfold connect_or_start_server
  by_cases hd : digits_line (connect_server held s w).out
  · simpa [hd] using inv_connect held s w h
  · simpa [hd] using inv_start 10 e held (connect_server held s w).files
      (connect_server held s w).world

theorem inv_run_script (c : Cmd) (e : StartEnv) (s : SessionFiles) (w : World)
    (h : SessionInv s) : SessionInv (run_script c e s w).files := by
  cases c with
  | connect => exact inv_connect false s w h
  | disconnect g => exact inv_disconnect (g.getD 0) false s w h
  | start b => exact inv_start (b.getD 10) e false s w
  | stop => exact inv_stop false s w
  | connect_or_start => exact inv_connect_or_start e false s w h
  | sync_connect => exact inv_connect true s w h
  | sync_disconnect g => exact inv_disconnect 0 true s w h
  | sync_start => exact inv_connect_or_start e true s w h

theorem reachable_inv {s : SessionFiles} (h : Reachable s) : SessionInv s := by
  induction h with
  | init => exact Or.inl (by simp [empty_session, all_absent])
  | step c e w _ ih => exact inv_run_script c e _ w ih

theorem inv_refcount {s : SessionFiles} (h : SessionInv s) :
    0 ≤ refcount s ∧ (refcount s = 0 ↔ all_absent s) := by
  rcases h with habs | ⟨n, hn1, hc, _, _, _⟩
  · simp [refcount, habs.2.1, habs]
  · constructor
    · simp only [refcount, hc, Option.getD_some]; omega
    · constructor
      · intro h0; rw [refcount, hc] at h0; simp at h0; omega
      · intro habs; exact absurd habs.2.1 (by simp [hc])

/-- One `connect` or `disconnect` invocation against the session directory,
with the world it observes. -/
inductive CDOp where
  | connect (w : World)
  | disconnect (grace : Nat) (w : World)

/-- Effect of a `connect`/`disconnect` invocation on the session files. -/
def cd_apply (s : SessionFiles) : CDOp → SessionFiles
  | .connect w => (connect_server false s w).files
  | .disconnect g w => (disconnect_server g false s w).files

/-- All session-file states visited while running a sequence of
`connect`/`disconnect` invocations, starting state included. -/
def cd_states (s : SessionFiles) : List CDOp → List SessionFiles
  | [] => [s]
  | op :: ops => s :: cd_states (cd_apply s op) ops

theorem inv_cd_apply (s : SessionFiles) (op : CDOp) (h : SessionInv s) :
    SessionInv (cd_apply s op) := by
  cases op with
  | connect w => exact inv_connect false s w h
  | disconnect g w => exact inv_disconnect g false s w h

theorem inv_cd_states (s : SessionFiles) (ops : List CDOp) (h : SessionInv s) :
    ∀ s' ∈ cd_states s ops, SessionInv s' := by
  induction ops generalizing s with
  | nil => intro s' hs'; simp [cd_states] at hs'; rwa [hs']
  | cons op ops ih =>
    intro s' hs'
    rcases (by simpa [cd_states] using hs') with h1 | h2
    · rwa [h1]
    · exact ih (cd_apply s op) (inv_cd_apply s op h) s' h2

/-- C2: starting from any reachable session state, along any finite sequence
of `connect`/`disconnect` invocations the refcount never becomes negative,
and it equals zero exactly when all four session state files
`{port, pid1, pid2, count}` are absent. -/
theorem refcount_invariant_reachable (s : SessionFiles) (hs : Reachable s)
    (ops : List CDOp) :
    ∀ s' ∈ cd_states s ops, 0 ≤ refcount s' ∧ (refcount s' = 0 ↔ all_absent s') :=
  fun s' hs' => inv_refcount (inv_cd_states s ops (reachable_inv hs) s' hs')

/-- Witness for C2 at a concrete input: the empty session directory with a
one-step sequence. -/
theorem refcount_invariant_reachable_witness :
    0 ≤ refcount empty_session ∧ (refcount empty_session = 0 ↔ all_absent empty_session) :=
  refcount_invariant_reachable empty_session Reachable.init [] empty_session
    (by simp [cd_states])

/-! ## Helper lemmas about the controller operations -/

theorem connect_absent (held : Bool) (s : SessionFiles) (w : World)
    (hp : s.pid2 = none) :
    connect_server held s w =
      { files := s, world := w, out := "NOT RUNNING", trace := [] } := by
  simp [connect_server, hp]

theorem connect_dead (held : Bool) (s : SessionFiles) (w : World) (p2 : Nat)
    (hp : s.pid2 = some p2) (ha : w.alive p2 = false) :
    connect_server held s w =
      { files := s, world := w, out := "NOT RUNNING", trace := [] } := by
  simp [connect_server, hp, ha]

theorem connect_stale (held : Bool) (s : SessionFiles) (w : World) (p2 : Nat)
    (hp : s.pid2 = some p2) (ha : w.alive p2 = true)
    (hb : port_bound_by w s.port p2 = false) :
    connect_server held s w = { stop_server held s w with out := "STALE" } := by
  simp [connect_server, hp, ha, hb]

theorem connect_running (held : Bool) (s : SessionFiles) (w : World) (p2 pt : Nat)
    (hp : s.pid2 = some p2) (hpt : s.port = some pt) (ha : w.alive p2 = true)
    (hb : w.bound pt = some p2) :
    connect_server held s w =
      { files := { s with count := some (s.count.getD 0 + 1) },
        world := w,
        out := toString pt,
        trace := [(Ev.write FId.count, held)] } := by
  have hb' : port_bound_by w (some pt) p2 = true := by
    simp [port_bound_by, hb]
  simp [connect_server, hp, hpt, ha, hb']

theorem start_found (budget : Nat) (e : StartEnv) (held : Bool) (s : SessionFiles)
    (w : World) (pt : Nat) (hp : poll_port e.extract budget = some pt) :
    (start_server budget e held s w).files.port = some pt ∧
    (start_server budget e held s w).files.count = some 1 ∧
    (start_server budget e held s w).files.pid1 = some e.pid1 ∧
    (start_server budget e held s w).files.pid2 = some (e.child_of e.pid1) ∧
    (start_server budget e held s w).out = toString pt := by
  simp [start_server, hp]

theorem start_timeout (budget : Nat) (e : StartEnv) (held : Bool) (s : SessionFiles)
    (w : World) (hp : poll_port e.extract budget = none) :
    (start_server budget e held s w).out = "ERROR" ∧
    all_absent (start_server budget e held s w).files := by
  constructor
  · simp [start_server, hp]
  · simp [start_server, hp, stop_files, all_absent]

theorem poll_port_none_iff (extract : Nat → Option Nat) (budget : Nat) :
    poll_port extract budget = none ↔ ∀ i < budget, extract i = none := by
  simp [poll_port, List.findSome?_eq_none_iff, List.mem_range]

/-! ## Concrete fixtures used by witnesses and counterexamples -/

/-- A session directory recording a running server: port 8000, one client,
wrapper pid 100, worker pid 101. -/
def running_files : SessionFiles :=
  { port := some 8000, count := some 1, pid1 := some 100, pid2 := some 101,
    log := true }

/-- A world in which no process is alive and no port is bound. -/
def dead_world : World := { alive := fun _ => false, bound := fun _ => none }

/-- A world in which the recorded worker pid 101 is alive and bound to
port 8000. -/
def live_world : World :=
  { alive := fun p => p == 101, bound := fun pt => if pt == 8000 then some 101 else none }

/-- A world in which the recorded worker pid 101 is alive but no process is
bound to any port (a stale session). -/
def stale_world : World := { alive := fun p => p == 101, bound := fun _ => none }

/-- A start environment: the wrapper gets pid 70, its child pid 71, and the
log reports listening port 9123 from the third poll on. -/
def env0 : StartEnv :=
  { pid1 := 70, child_of := fun p => p + 1,
    extract := fun i => if i ≥ 2 then some 9123 else none }

/-! ## C7: `stop` semantics -/

/-- C7: `stop_server` removes the four session state files (the `log` file
and the lock are untouched), prints nothing (and in particular never
fails — a dead or missing pid is simply not signalled), signals exactly the
recorded pids, and is idempotent: a second `stop` changes neither the files
nor the world, and `stop` on a session with no state files changes
nothing. -/
theorem stop_server_spec (held : Bool) (s : SessionFiles) (w : World) :
    all_absent (stop_server held s w).files ∧
    (stop_server held s w).files.log = s.log ∧
    (stop_server held s w).out = "" ∧
    (stop_server held (stop_server held s w).files (stop_server held s w).world).files
      = (stop_server held s w).files ∧
    (stop_server held (stop_server held s w).files (stop_server held s w).world).world
      = (stop_server held s w).world ∧
    (stop_server held s w).world.bound = w.bound ∧
    (∀ p : Nat, (stop_server held s w).world.alive p =
      if s.pid2 = some p ∨ s.pid1 = some p then false else w.alive p) ∧
    (all_absent s → (stop_server held s w).files = s ∧ (stop_server held s w).world = w) := by
  refine ⟨by simp [stop_files, all_absent], rfl, rfl, rfl, rfl, ?_, ?_, ?_⟩
  · rcases h2 : s.pid2 with _ | p2 <;> rcases h1 : s.pid1 with _ | p1 <;>
      simp [stop_server, World.kill, h1, h2]
  · intro p
    rcases h2 : s.pid2 with _ | p2 <;> rcases h1 : s.pid1 with _ | p1 <;>
      simp [stop_server, World.kill, h1, h2] <;>
      first
      | rfl
      | (by_cases e1 : p = p1 <;> by_cases e2 : p = p2 <;> simp_all [eq_comm])
      | (by_cases e1 : p = p1 <;> simp_all [eq_comm])
      | (by_cases e2 : p = p2 <;> simp_all [eq_comm])
  · intro habs
    obtain ⟨hp, hc, h1, h2⟩ := habs
    constructor
    · rw [stop_files]
      cases s
      simp_all
    · simp [stop_server, h1, h2]

/-- Witness for C7: stopping an empty session changes nothing. -/
theorem stop_server_spec_witness :
    (stop_server false empty_session dead_world).files = empty_session ∧
    (stop_server false empty_session dead_world).world = dead_world :=
  (stop_server_spec false empty_session dead_world).2.2.2.2.2.2.2 (by decide)

/-! ## C5: `connect` semantics -/

/-- C5 counterexample: `connect` against a session whose recorded pid (101)
belongs to a dead process prints `NOT RUNNING` but does **not** run `stop`'s
cleanup — all four state files are still present afterwards. -/
theorem connect_dead_pid_leaves_files :
    (connect_server false running_files dead_world).out = "NOT RUNNING" ∧
    (connect_server false running_files dead_world).files = running_files ∧
    ¬ all_absent (connect_server false running_files dead_world).files :=
  ⟨rfl, rfl, by decide⟩

/-- C5 amended: `connect` increments the refcount and returns the port when
the recorded worker is alive and bound to the recorded port; when the worker
is alive but *not* bound to the recorded port it runs `stop`'s cleanup and
prints `STALE`; when the `pid2` file is absent or the recorded worker is
dead it prints `NOT RUNNING` and leaves the session files untouched. -/
theorem connect_server_cases (held : Bool) (s : SessionFiles) (w : World) :
    (∀ p2 pt, s.pid2 = some p2 → s.port = some pt → w.alive p2 = true →
      w.bound pt = some p2 →
      (connect_server held s w).files = { s with count := some (s.count.getD 0 + 1) } ∧
      (connect_server held s w).out = toString pt ∧
      (connect_server held s w).world = w) ∧
    (∀ p2, s.pid2 = some p2 → w.alive p2 = true →
      port_bound_by w s.port p2 = false →
      (connect_server held s w).out = "STALE" ∧
      all_absent (connect_server held s w).files) ∧
    (∀ p2, s.pid2 = some p2 → w.alive p2 = false →
      (connect_server held s w).files = s ∧
      (connect_server held s w).world = w ∧
      (connect_server held s w).out = "NOT RUNNING") ∧
    (s.pid2 = none →
      (connect_server held s w).files = s ∧
      (connect_server held s w).world = w ∧
      (connect_server held s w).out = "NOT RUNNING") := by
  refine ⟨?_, ?_, ?_, ?_⟩
  · intro p2 pt hp hpt ha hb
    rw [connect_running held s w p2 pt hp hpt ha hb]
    exact ⟨rfl, rfl, rfl⟩
  · intro p2 hp ha hb
    rw [connect_stale held s w p2 hp ha hb]
    exact ⟨rfl, by simp [stop_files, all_absent]⟩
  · intro p2 hp ha
    rw [connect_dead held s w p2 hp ha]
    exact ⟨rfl, rfl, rfl⟩
  · intro hp
    rw [connect_absent held s w hp]
    exact ⟨rfl, rfl, rfl⟩

/-- Witness for the amended C5 at a concrete running session: the refcount
goes from 1 to 2 and the recorded port 8000 is printed. -/
theorem connect_server_cases_witness :
    (connect_server false running_files live_world).files =
      { running_files with count := some 2 } ∧
    (connect_server false running_files live_world).out = "8000" := by
  have h := (connect_server_cases false running_files live_world).1 101 8000
    rfl rfl (by decide) (by decide)
  refine ⟨?_, ?_⟩
  · rw [h.1]; decide
  · rw [h.2.1]; rfl

/-! ## C6: `start` semantics -/

/-- C6: `start_server budget` polls the log up to `budget` times; if the
listening-port marker yields a port `pt` within the budget, it records
`count=1`, `pid1` (the launched wrapper), `pid2` (the wrapper's child found
via `ps --ppid`) and `port=pt`, and prints `pt`; if the marker never
appears within the budget it runs the cleanup and prints `ERROR`, leaving
none of the four state files in existence. -/
theorem start_server_spec (budget : Nat) (e : StartEnv) (held : Bool)
    (s : SessionFiles) (w : World) :
    (∀ pt, poll_port e.extract budget = some pt →
      (start_server budget e held s w).files.port = some pt ∧
      (start_server budget e held s w).files.count = some 1 ∧
      (start_server budget e held s w).files.pid1 = some e.pid1 ∧
      (start_server budget e held s w).files.pid2 = some (e.child_of e.pid1) ∧
      (start_server budget e held s w).out = toString pt) ∧
    (poll_port e.extract budget = none →
      (start_server budget e held s w).out = "ERROR" ∧
      all_absent (start_server budget e held s w).files) ∧
    (poll_port e.extract budget = none ↔ ∀ i < budget, e.extract i = none) :=
  ⟨fun pt hp => start_found budget e held s w pt hp,
   fun hp => start_timeout budget e held s w hp,
   poll_port_none_iff e.extract budget⟩

/-- Witness for C6: with a budget of 5 and a log that reports port 9123
from the third poll on, `start` records and prints 9123. -/
theorem start_server_spec_witness :
    (start_server 5 env0 false empty_session dead_world).files.port = some 9123 ∧
    (start_server 5 env0 false empty_session dead_world).files.count = some 1 ∧
    (start_server 5 env0 false empty_session dead_world).files.pid1 = some 70 ∧
    (start_server 5 env0 false empty_session dead_world).files.pid2 = some 71 ∧
    (start_server 5 env0 false empty_session dead_world).out = "9123" :=
  (start_server_spec 5 env0 false empty_session dead_world).1 9123 (by decide)

/-! ## C10: `connect-or-start` fall-through -/

/-- C10: `connect-or-start` echoes the captured `connect` output only when it
is a non-empty digit string; any other output — in particular the `STALE`
printed after cleaning a stale session, and `NOT RUNNING` — falls through to
`start_server 10` applied to the post-`connect` state, so a single
invocation both recovers a stale session and launches a fresh server,
returning the new server's port. -/
theorem connect_or_start_fallthrough (e : StartEnv) (held : Bool)
    (s : SessionFiles) (w : World) :
    digits_line "STALE" = false ∧
    digits_line "NOT RUNNING" = false ∧
    (digits_line (connect_server held s w).out = false →
      (connect_or_start_server e held s w).files =
        (start_server 10 e held (connect_server held s w).files
          (connect_server held s w).world).files ∧
      (connect_or_start_server e held s w).out =
        (start_server 10 e held (connect_server held s w).files
          (connect_server held s w).world).out) ∧
    (∀ p2 N, s.pid2 = some p2 → w.alive p2 = true →
      port_bound_by w s.port p2 = false → poll_port e.extract 10 = some N →
      (connect_or_start_server e held s w).out = toString N ∧
      (connect_or_start_server e held s w).files.port = some N ∧
      (connect_or_start_server e held s w).files.count = some 1 ∧
      (connect_or_start_server e held s w).files.pid1 = some e.pid1 ∧
      (connect_or_start_server e held s w).files.pid2 = some (e.child_of e.pid1)) := by
  refine ⟨by decide, by decide, ?_, ?_⟩
  · intro hd
    simp [connect_or_start_server, hd]
  · intro p2 N hp ha hb hfind
    have hout : (connect_server held s w).out = "STALE" := by
      rw [connect_stale held s w p2 hp ha hb]
    have hd : digits_line (connect_server held s w).out = false := by
      rw [hout]; decide
    have hfound := start_found 10 e held (connect_server held s w).files
      (connect_server held s w).world N hfind
    simp only [connect_or_start_server, hd, Bool.false_eq_true, if_false]
    exact ⟨hfound.2.2.2.2, hfound.1, hfound.2.1, hfound.2.2.1, hfound.2.2.2.1⟩

/-- Witness for C10: a stale session (worker alive but not bound) is cleaned
up and a fresh server is started, printing the fresh port 9123. -/
theorem connect_or_start_fallthrough_witness :
    (connect_or_start_server env0 false running_files stale_world).out = "9123" ∧
    (connect_or_start_server env0 false running_files stale_world).files.port
      = some 9123 ∧
    (connect_or_start_server env0 false running_files stale_world).files.count
      = some 1 ∧
    (connect_or_start_server env0 false running_files stale_world).files.pid1
      = some 70 ∧
    (connect_or_start_server env0 false running_files stale_world).files.pid2
      = some 71 := by
  have h := (connect_or_start_fallthrough env0 false running_files stale_world).2.2.2
    101 9123 rfl (by decide) (by decide) (by decide)
  exact ⟨h.1, h.2.1, h.2.2.1, h.2.2.2.1, h.2.2.2.2⟩

/-! ## C4: the locking discipline -/

/-- Events that mutate the session state files (writes and removals) or
signal the recorded processes; `sleep` is not a mutation. -/
def is_mutation : Ev → Bool
  | .write _ => true
  | .remove _ => true
  | .kill _ => true
  | .sleep _ => false

theorem stop_trace_held (held : Bool) (s : SessionFiles) (w : World) :
    ∀ q ∈ (stop_server held s w).trace, q.2 = held := by
  rintro ⟨ev, b⟩ hq
  rcases h2 : s.pid2 with _ | p2 <;> rcases h1 : s.pid1 with _ | p1 <;>
    simp [stop_server, h1, h2] at hq <;> tauto

theorem connect_trace_held (held : Bool) (s : SessionFiles) (w : World) :
    ∀ q ∈ (connect_server held s w).trace, q.2 = held := by
  intro q hq
  rcases h2 : s.pid2 with _ | p2
  · rw [connect_absent held s w h2] at hq
    simp at hq
  · by_cases ha : w.alive p2
    · by_cases hb : port_bound_by w s.port p2
      · rw [connect_running held s w p2 (s.port.getD 0) h2 ?_ ha ?_] at hq
        · simp at hq
          rw [hq]
        · rcases hpt : s.port with _ | pt
          · rw [hpt] at hb; simp [port_bound_by] at hb
          · simp [hpt]
        · rcases hpt : s.port with _ | pt
          · rw [hpt] at hb; simp [port_bound_by] at hb
          · rw [hpt] at hb
            simpa [port_bound_by, hpt] using hb
      · rw [connect_stale held s w p2 h2 ha (by simpa using hb)] at hq
        exact stop_trace_held held s w q hq
    · rw [connect_dead held s w p2 h2 (by simpa using ha)] at hq
      simp at hq

theorem disconnect_trace_held (grace : Nat) (held : Bool) (s : SessionFiles)
    (w : World) :
    ∀ q ∈ (disconnect_server grace held s w).trace, q.2 = held := by
  rintro ⟨ev, b⟩ hq
  rcases hc : s.count with _ | c
  · simp [disconnect_server, hc] at hq
    tauto
  · by_cases hz : (c - 1 : Int) = 0
    · simp [disconnect_server, hc, hz] at hq
      rcases hq with hq | hq | hq
      · tauto
      · tauto
      · exact stop_trace_held held _ w (ev, b) hq
    · simp [disconnect_server, hc, hz] at hq
      tauto

theorem start_trace_held (budget : Nat) (e : StartEnv) (held : Bool)
    (s : SessionFiles) (w : World) :
    ∀ q ∈ (start_server budget e held s w).trace, q.2 = held := by
  rintro ⟨ev, b⟩ hq
  rcases hp : poll_port e.extract budget with _ | pt
  · simp [start_server, hp] at hq
    rcases hq with hq | hq
    · tauto
    · exact stop_trace_held held s w (ev, b) hq
  · simp [start_server, hp] at hq
    tauto

theorem cos_trace_held (e : StartEnv) (held : Bool) (s : SessionFiles)
    (w : World) :
    ∀ q ∈ (connect_or_start_server e held s w).trace, q.2 = held := by
  intro q hq
  by_cases hd : digits_line (connect_server held s w).out
  · rw [show connect_or_start_server e held s w = connect_server held s w by
      simp [connect_or_start_server, hd]] at hq
    exact connect_trace_held held s w q hq
  · simp only [connect_or_start_server, hd, Bool.false_eq_true, if_false] at hq
    simp only [List.mem_append] at hq
    rcases hq with hq | hq
    · exact connect_trace_held held s w q hq
    · exact start_trace_held 10 e held _ _ q hq

/-- C4 counterexample: for the orchestrator's `synchronized-disconnect`
invocation (default grace 5 s) against a live session, the 5-second grace
sleep appears in the trace with the lock **not** held, and no grace sleep of
that duration happens under the lock (the `disconnect` body runs under the
lock with grace 0). -/
theorem sync_disconnect_grace_sleep_unlocked :
    (Ev.sleep 50, false) ∈
      (run_script (Cmd.sync_disconnect none) env0 running_files dead_world).trace ∧
    (Ev.sleep 50, true) ∉
      (run_script (Cmd.sync_disconnect none) env0 running_files dead_world).trace := by
  decide

/-- C4 amended: every mutation of the session state files performed through
the `synchronized-*` entry points happens while the exclusive `flock` lock
on the session directory is held, but `synchronized-disconnect` performs its
grace-period sleep *before* acquiring the lock (its trace starts with an
unlocked sleep of the grace duration), and the `disconnect` body then runs
under the lock with grace 0. -/
theorem sync_mutations_hold_lock (e : StartEnv) (s : SessionFiles) (w : World)
    (g : Option Nat) :
    (∀ c ∈ [Cmd.sync_connect, Cmd.sync_disconnect g, Cmd.sync_start], ∀ ev b,
      (ev, b) ∈ (run_script c e s w).trace → is_mutation ev = true → b = true) ∧
    (run_script (Cmd.sync_disconnect g) e s w).trace.head? =
      some (Ev.sleep (10 * g.getD 5), false) := by
  constructor
  · intro c hc ev b hmem _hmut
    rcases (by simpa using hc : c = Cmd.sync_connect ∨ c = Cmd.sync_disconnect g ∨
        c = Cmd.sync_start) with rfl | rfl | rfl
    · exact connect_trace_held true s w (ev, b) hmem
    · rcases (by simpa [run_script] using hmem :
          (ev = Ev.sleep (10 * g.getD 5) ∧ b = false) ∨
            (ev, b) ∈ (disconnect_server 0 true s w).trace) with ⟨hev, _⟩ | hmem'
      · rw [hev] at _hmut
        simp [is_mutation] at _hmut
      · exact disconnect_trace_held 0 true s w (ev, b) hmem'
    · exact cos_trace_held e true s w (ev, b) hmem
  · rfl

/-- Witness for the amended C4 at a concrete session: the trace of
`synchronized-disconnect` starts with the unlocked 5-second grace sleep, and
a sample mutation (the `count` write) carries the lock. -/
theorem sync_mutations_hold_lock_witness :
    (run_script (Cmd.sync_disconnect none) env0 running_files dead_world).trace.head? =
      some (Ev.sleep 50, false) ∧
    (true : Bool) = true := by
  have h := sync_mutations_hold_lock env0 running_files dead_world none
  exact ⟨h.2, h.1 (Cmd.sync_disconnect none) (by simp) (Ev.write FId.count) true
    (by decide) (by decide)⟩

/-! ## C9: platform detection (`detect_platform`, `linux_arch_to_nodejs_arch`) -/

/-- Model of `linux_arch_to_nodejs_arch` of `src/setup.ts`: the fixed switch mapping
raw architecture tokens to node.js architecture names. The `i386`/`i686`
cases `throw "32 bit x86 is not supported"` before their unreachable
`return "ia32"`, and the default case throws `unsupported linux arch ...`;
throws are modelled as `Except.error` with the thrown string. -/
def linux_arch_to_nodejs_arch (arch : String) : Except String String :=
  if arch = "x86_64" ∨ arch = "x86-64" ∨ arch = "amd64" then .ok "x64"
  else if arch = "i386" ∨ arch = "i686" then .error "32 bit x86 is not supported"
  else if arch = "armv7l" ∨ arch = "armv8l" then .ok "armhf"
  else if arch = "arm64" ∨ arch = "aarch64" then .ok "arm64"
  else if arch = "ppc64le" then .ok "ppc64le"
  else if arch = "riscv64" then .ok "riscv64"
  else if arch = "loongarch64" then .ok "loong64"
  else if arch = "s390x" then .ok "s390x"
  else .error ("unsupported linux arch " ++ arch)

/-- The raw tokens the switch maps to a canonical architecture. -/
def supported_arch_tokens : List String :=
  ["x86_64", "x86-64", "amd64", "armv7l", "armv8l", "arm64", "aarch64",
   "ppc64le", "riscv64", "loongarch64", "s390x"]

/-- The error messages of the `UnsupportedPlatform` class: the explicit
32-bit exclusion and the default-case throw. -/
def unsupported_platform_msg (m : String) : Prop :=
  m = "32 bit x86 is not supported" ∨ ∃ t, m = "unsupported linux arch " ++ t

/-- Test that the first argument is a leading segment of the second. -/
def begins : List Char → List Char → Bool
  | [], _ => true
  | _ :: _, [] => false
  | a :: p, b :: s => a == b && begins p s

/-- First index at which `pat` occurs as a contiguous substring of `s`. -/
def find_substr (s pat : List Char) : Option Nat :=
  (List.range (s.length + 1)).find? (fun i => begins pat (List.drop i s))

/-- JavaScript `String.prototype.match` against a plain-text pattern,
used for the `/Free Software Foundation/` test. -/
def contains_substr (s pat : String) : Bool :=
  (find_substr s.data pat.data).isSome

/-- Index of the last `)` in a character list, if any. -/
def last_rparen_idx (line : List Char) : Option Nat :=
  match line.reverse.findIdx? (fun c => c == ')') with
  | some k => some (line.length - 1 - k)
  | none => none

/-- The `/musl libc \((.+)\)/` match of `detect_platform`: at the first
occurrence of `musl libc (`, the greedy capture runs to the last `)` on the
same line (`.` does not match a newline) and must be non-empty. -/
def musl_capture (s : String) : Option String :=
  match find_substr s.data "musl libc (".data with
  | some i =>
    let rest := List.drop (i + "musl libc (".length) s.data
    let line := rest.takeWhile (fun c => c != '\n')
    match last_rparen_idx line with
    | some j => if j = 0 then none else some ⟨List.take j line⟩
    | none => none
  | none => none

/-- The `/ld-linux-([^.]+)\.so/` match of `detect_platform`: after the first
occurrence of `ld-linux-`, the greedy non-dot run must be non-empty and be
followed by `.so`. -/
def glibc_capture (s : String) : Option String :=
  match find_substr s.data "ld-linux-".data with
  | some i =>
    let rest := List.drop (i + "ld-linux-".length) s.data
    let run := rest.takeWhile (fun c => c != '.')
    if run.isEmpty then none
    else if begins ".so".data (List.drop run.length rest) then some ⟨run⟩
    else none
  | none => none

/-- Outcome of one `guest.exec` probe: whether the command exited zero, and
the captured stdout (the probe runs `ldd --version 2>&1`, so stderr is
folded into stdout). -/
structure ExecOutcome where
  ok : Bool
  stdout : String

/-- The `try { ... } catch (e) { ldd_info = e.stdout }` around the first
probe in `detect_platform`: the promisified `execFile` throws on a non-zero
exit code (musl's `ldd` always exits 1), but the thrown error still carries
the captured stdout, which the catch block uses. The classification
therefore sees the same output whatever the exit code was. -/
def ldd_probe_output (r : ExecOutcome) : String := r.stdout

/-- The two probe commands `detect_platform` can run. -/
def ldd_version_cmd : List String := ["bash", "-c", "ldd --version 2>&1"]

def ldd_bin_true_cmd : List String := ["ldd", "/bin/true"]

def probe_commands : List (List String) := [ldd_version_cmd, ldd_bin_true_cmd]

/-- Model of `detect_platform` of `src/setup.ts`, returning the classification and
the list of commands it executed. `r1` is the outcome of the
`ldd --version 2>&1` probe; `out2` is the stdout of the `ldd /bin/true`
probe, run only in the glibc branch. If the musl signature matches, the
architecture token comes from the same output; otherwise, if the glibc
signature (`Free Software Foundation`) matches, the token is taken from the
loader path in `out2` (the source applies a non-null assertion `!` to that
match, so a failed match throws a `TypeError` at member access); otherwise
the probe fails with `distro's libc is neither musl nor glibc`. (The
initial `arch = node_arch()` default is overwritten on every non-throwing
path, so it is not modelled.) -/
def detect_platform (r1 : ExecOutcome) (out2 : String) :
    Except String (String × String) × List (List String) :=
  let ldd_info := ldd_probe_output r1
  match musl_capture ldd_info with
  | some tok =>
    (match linux_arch_to_nodejs_arch tok with
     | .ok a => .ok ("alpine", a)
     | .error e => .error e,
     [ldd_version_cmd])
  | none =>
    if contains_substr ldd_info "Free Software Foundation" then
      (match glibc_capture out2 with
       | some tok =>
         match linux_arch_to_nodejs_arch tok with
         | .ok a => .ok ("linux", a)
         | .error e => .error e
       | none => .error "TypeError: null glibc loader match",
       [ldd_version_cmd, ldd_bin_true_cmd])
    else
      (.error "distro's libc is neither musl nor glibc", [ldd_version_cmd])

/-- C9: (1) the excluded 32-bit x86 tokens `i386`/`i686` fail with the
explicit `UnsupportedPlatform` message; (2) every token outside the mapping
table fails with an `UnsupportedPlatform`-class message; (3) when neither
the musl nor the glibc signature matches the first probe's output, detection
fails with the `ProbeFailure` message `distro's libc is neither musl nor
glibc`; (4) the classification depends only on the captured output of the
first probe, never on its exit code (the musl probe's inherent non-zero
exit is tolerated); (5) every command detection runs is one of the two
read-only `ldd` probes. -/
theorem detect_platform_spec :
    (∀ t, t = "i386" ∨ t = "i686" →
      linux_arch_to_nodejs_arch t = .error "32 bit x86 is not supported") ∧
    (∀ t, t ∉ supported_arch_tokens →
      ∃ m, linux_arch_to_nodejs_arch t = .error m ∧ unsupported_platform_msg m) ∧
    (∀ (r1 : ExecOutcome) (out2 : String), musl_capture r1.stdout = none →
      contains_substr r1.stdout "Free Software Foundation" = false →
      (detect_platform r1 out2).1 = .error "distro's libc is neither musl nor glibc") ∧
    (∀ (ec1 ec2 : Bool) (o out2 : String),
      detect_platform ⟨ec1, o⟩ out2 = detect_platform ⟨ec2, o⟩ out2) ∧
    (∀ (r1 : ExecOutcome) (out2 : String),
      ∀ c ∈ (detect_platform r1 out2).2, c ∈ probe_commands) := by
  refine ⟨?_, ?_, ?_, ?_, ?_⟩
  · rintro t (rfl | rfl) <;> rfl
  · intro t ht
    unfold linux_arch_to_nodejs_arch
    split_ifs with h1 h2 h3 h4 h5 h6 h7 h8
    · exact absurd (by simp [supported_arch_tokens]; tauto) ht
    · exact ⟨_, rfl, Or.inl rfl⟩
    · exact absurd (by simp [supported_arch_tokens]; tauto) ht
    · exact absurd (by simp [supported_arch_tokens]; tauto) ht
    · exact absurd (by simp [supported_arch_tokens]; tauto) ht
    · exact absurd (by simp [supported_arch_tokens]; tauto) ht
    · exact absurd (by simp [supported_arch_tokens]; tauto) ht
    · exact absurd (by simp [supported_arch_tokens]; tauto) ht
    · exact ⟨_, rfl, Or.inr ⟨t, rfl⟩⟩
  · intro r1 out2 hm hf
    simp [detect_platform, ldd_probe_output, hm, hf]
  · intro ec1 ec2 o out2
    rfl
  · intro r1 out2 c hc
    rcases hm : musl_capture (ldd_probe_output r1) with _ | tok
    · by_cases hf : contains_substr (ldd_probe_output r1) "Free Software Foundation"
      · simp only [detect_platform, hm, hf, if_true] at hc
        simpa [probe_commands] using hc
      · simp only [detect_platform, hm, hf, Bool.false_eq_true, if_false] at hc
        simp at hc
        simp [probe_commands, hc]
    · simp only [detect_platform, hm] at hc
      simp at hc
      simp [probe_commands, hc]

/-- Witness for C9 at concrete inputs: `i686` is rejected as 32-bit x86,
and an output matching neither libc signature yields the `ProbeFailure`
message. -/
theorem detect_platform_spec_witness :
    linux_arch_to_nodejs_arch "i686" = .error "32 bit x86 is not supported" ∧
    (detect_platform ⟨false, "sh: ldd: not found"⟩ "").1 =
      .error "distro's libc is neither musl nor glibc" :=
  ⟨detect_platform_spec.1 "i686" (Or.inr rfl),
   detect_platform_spec.2.2.1 ⟨false, "sh: ldd: not found"⟩ "" (by decide) (by decide)⟩

/-! ## C8: session identifiers and session directories -/

/-- The product quality field `_VSCODE_PRODUCT_JSON.quality`. -/
inductive Quality where
  | insider
  | stable
  deriving DecidableEq

/-- Model of `system_identifier` of `src/remote.ts`: instantiates
`"${os}-${arch}-${version}.${release}-insider"` (insider quality) or
`"${os}-${arch}-${version}.${release}"` (stable quality) via
`fill_template`. `version` stands for the product version with any
`-insider` suffix already stripped, and `release` for the product release,
both fixed for a given product build. -/
def system_identifier (q : Quality) (version release os arch : String) : String :=
  match q with
  | .insider => os ++ "-" ++ arch ++ "-" ++ version ++ "." ++ release ++ "-insider"
  | .stable => os ++ "-" ++ arch ++ "-" ++ version ++ "." ++ release

/-- The per-target part of the session directory name computed in
`RemoteAuthorityResolver.resolve`:
`vscodium-reh-${system_identifier(os, arch)}-${guest.name}` without the
fixed `vscodium-reh-` prefix; this matches the spec's session identifier
format `{os}-{arch}-{version}.{release}[-insider]-{target_name}`. -/
def session_key (q : Quality) (version release os arch name : String) : String :=
  system_identifier q version release os arch ++ "-" ++ name

/-- The session directory computed in `RemoteAuthorityResolver.resolve`:
`${xdg_runtime_dir}/vscodium-reh-${system_identifier(os, arch)}-${guest.name}`. -/
def server_session_dir (rt : String) (q : Quality)
    (version release os arch name : String) : String :=
  rt ++ "/vscodium-reh-" ++ system_identifier q version release os arch ++ "-" ++ name

/-- The two os-family names `detect_platform` can produce. -/
def canonical_os : List String := ["alpine", "linux"]

/-- The canonical architecture names `linux_arch_to_nodejs_arch` can
produce (the `ia32` case is unreachable, sitting after a `throw`). -/
def canonical_arch : List String :=
  ["x64", "armhf", "arm64", "ppc64le", "riscv64", "loong64", "s390x"]

theorem arch_map_canonical (t a : String)
    (h : linux_arch_to_nodejs_arch t = .ok a) : a ∈ canonical_arch := by
  unfold linux_arch_to_nodejs_arch at h
  split_ifs at h <;> simp_all [canonical_arch]

theorem detect_platform_canonical (r1 : ExecOutcome) (out2 : String)
    (os a : String) (h : (detect_platform r1 out2).1 = .ok (os, a)) :
    os ∈ canonical_os ∧ a ∈ canonical_arch := by
  rcases hm : musl_capture (ldd_probe_output r1) with _ | tok
  · by_cases hf : contains_substr (ldd_probe_output r1) "Free Software Foundation"
    · rcases hg : glibc_capture out2 with _ | tok2
      · simp [detect_platform, hm, hf, hg] at h
      · rcases ha : linux_arch_to_nodejs_arch tok2 with e | a2
        · simp [detect_platform, hm, hf, hg, ha] at h
        · simp [detect_platform, hm, hf, hg, ha] at h
          obtain ⟨ho, ha2⟩ := h
          subst ho; subst ha2
          exact ⟨by simp [canonical_os], arch_map_canonical _ _ ha⟩
    · simp [detect_platform, hm, hf] at h
  · rcases ha : linux_arch_to_nodejs_arch tok with e | a2
    · simp [detect_platform, hm, ha] at h
    · simp [detect_platform, hm, ha] at h
      obtain ⟨ho, ha2⟩ := h
      subst ho; subst ha2
      exact ⟨by simp [canonical_os], arch_map_canonical _ _ ha⟩

/-- All `(os_family, architecture)` pairs the detector can produce. -/
def os_arch_pairs : List (String × String) := canonical_os.product canonical_arch

/-- The leading `{os}-{arch}-` segment of a session identifier. -/
def id_head (c : String × String) : List Char := (c.1 ++ "-" ++ c.2 ++ "-").data

/-- The `{version}.{release}[-insider]` middle segment of a session
identifier, identical for the two identifiers being compared. -/
def mid_part (q : Quality) (version release : String) : String :=
  match q with
  | .insider => version ++ "." ++ release ++ "-insider"
  | .stable => version ++ "." ++ release

theorem begins_append_eq : ∀ (p1 p2 s1 s2 : List Char),
    p1 ++ s1 = p2 ++ s2 → begins p1 p2 = true ∨ begins p2 p1 = true := by
  intro p1
  induction p1 with
  | nil => intro p2 s1 s2 _; left; rfl
  | cons a p1 ih =>
    intro p2 s1 s2 h
    cases p2 with
    | nil => right; rfl
    | cons b p2 =>
      simp only [List.cons_append, List.cons.injEq] at h
      obtain ⟨rfl, htail⟩ := h
      rcases ih p2 s1 s2 htail with hb | hb
      · left; simp [begins, hb]
      · right; simp [begins, hb]

theorem id_head_no_overlap :
    ∀ c1 ∈ os_arch_pairs, ∀ c2 ∈ os_arch_pairs, c1 ≠ c2 →
      begins (id_head c1) (id_head c2) = false := by
  decide

theorem session_key_data (q : Quality) (version release os arch name : String) :
    (session_key q version release os arch name).data =
      id_head (os, arch) ++
        ((mid_part q version release).data ++ (("-" : String).data ++ name.data)) := by
  cases q <;>
    simp [session_key, system_identifier, mid_part, id_head,
      String.data_append, List.append_assoc]

theorem session_key_data_inj (q : Quality) (version release : String)
    (os1 arch1 name1 os2 arch2 name2 : String)
    (h1 : os1 ∈ canonical_os) (h2 : arch1 ∈ canonical_arch)
    (h3 : os2 ∈ canonical_os) (h4 : arch2 ∈ canonical_arch)
    (hd : (session_key q version release os1 arch1 name1).data =
      (session_key q version release os2 arch2 name2).data) :
    os1 = os2 ∧ arch1 = arch2 ∧ name1 = name2 := by
  rw [session_key_data, session_key_data] at hd
  by_cases hc : (os1, arch1) = (os2, arch2)
  · have ho : os1 = os2 := congrArg Prod.fst hc
    have ha : arch1 = arch2 := congrArg Prod.snd hc
    subst ho; subst ha
    refine ⟨rfl, rfl, ?_⟩
    have hx := List.append_cancel_left hd
    have hy := List.append_cancel_left hx
    have hz := List.append_cancel_left hy
    exact String.ext hz
  · have m1 : (os1, arch1) ∈ os_arch_pairs := List.pair_mem_product.mpr ⟨h1, h2⟩
    have m2 : (os2, arch2) ∈ os_arch_pairs := List.pair_mem_product.mpr ⟨h3, h4⟩
    rcases begins_append_eq (id_head (os1, arch1)) (id_head (os2, arch2)) _ _ hd
      with hb | hb
    · rw [id_head_no_overlap (os1, arch1) m1 (os2, arch2) m2 hc] at hb
      simp at hb
    · rw [id_head_no_overlap (os2, arch2) m2 (os1, arch1) m1 (Ne.symm hc)] at hb
      simp at hb

theorem server_session_dir_data (rt : String) (q : Quality)
    (version release os arch name : String) :
    (server_session_dir rt q version release os arch name).data =
      (rt ++ "/vscodium-reh-").data ++ (session_key q version release os arch name).data := by
  cases q <;>
    simp [server_session_dir, session_key, system_identifier,
      String.data_append, List.append_assoc]

/-- C8: for a fixed product quality, server version and release, the session
key `{os}-{arch}-{version}.{release}[-insider]-{target_name}` and the
session directory derived from it are injective in
`(os_family, architecture, target_name)`: two targets get the same key (or
the same directory under the same shared runtime directory) exactly when
their os family, architecture and name all coincide — where os and
architecture range over the canonical values the platform detector can
produce. -/
theorem session_identifier_injective (q : Quality) (version release rt : String)
    (os1 arch1 name1 os2 arch2 name2 : String)
    (h1 : os1 ∈ canonical_os) (h2 : arch1 ∈ canonical_arch)
    (h3 : os2 ∈ canonical_os) (h4 : arch2 ∈ canonical_arch) :
    (session_key q version release os1 arch1 name1 =
        session_key q version release os2 arch2 name2 ↔
      os1 = os2 ∧ arch1 = arch2 ∧ name1 = name2) ∧
    (server_session_dir rt q version release os1 arch1 name1 =
        server_session_dir rt q version release os2 arch2 name2 ↔
      os1 = os2 ∧ arch1 = arch2 ∧ name1 = name2) := by
  constructor
  · constructor
    · intro heq
      exact session_key_data_inj q version release os1 arch1 name1 os2 arch2 name2
        h1 h2 h3 h4 (congrArg String.data heq)
    · rintro ⟨rfl, rfl, rfl⟩; rfl
  · constructor
    · intro heq
      have hd := congrArg String.data heq
      rw [server_session_dir_data, server_session_dir_data] at hd
      exact session_key_data_inj q version release os1 arch1 name1 os2 arch2 name2
        h1 h2 h3 h4 (List.append_cancel_left hd)
    · rintro ⟨rfl, rfl, rfl⟩; rfl

/-- Witness for C8 at concrete inputs: an alpine/x64 target and a
linux/x64 target with the same name, same shared runtime directory and the
same product version get distinct session directories. -/
theorem session_identifier_injective_witness :
    server_session_dir "/run/user/1000" Quality.stable "1.96.4" "24322"
        "alpine" "x64" "ubuntu" ≠
      server_session_dir "/run/user/1000" Quality.stable "1.96.4" "24322"
        "linux" "x64" "ubuntu" := by
  intro heq
  have h := (session_identifier_injective Quality.stable "1.96.4" "24322"
    "/run/user/1000" "alpine" "x64" "ubuntu" "linux" "x64" "ubuntu"
    (by decide) (by decide) (by decide) (by decide)).2.mp heq
  exact absurd h.1 (by decide)

/-! ## C1 and C3: the resolver orchestration (`RemoteAuthorityResolver.resolve`) -/

/-- JavaScript whitespace skipped by `parseInt`. -/
def js_whitespace (c : Char) : Bool :=
  c == ' ' || c == '\t' || c == '\n' || c == '\r'

/-- Value of a list of decimal digits. -/
def digits_val (l : List Char) : Nat :=
  l.foldl (fun a c => 10 * a + (c.toNat - '0'.toNat)) 0

/-- The leading run of decimal digits, if non-empty. -/
def js_digits (l : List Char) : Option Nat :=
  let d := l.takeWhile Char.isDigit
  if d.isEmpty then none else some (digits_val d)

/-- JavaScript `parseInt(s)` as the resolver uses it (`isNaN` ↦ `none`):
skip leading whitespace, optional sign, then the leading run of decimal
digits; no digits means `NaN`. (The controller only ever prints decimal
digits or words, so the hexadecimal `0x` special case cannot trigger.) -/
def js_parseInt (s : String) : Option Int :=
  let l := s.data.dropWhile js_whitespace
  match l with
  | '-' :: t => (js_digits t).map (fun n => -(n : Int))
  | '+' :: t => (js_digits t).map (fun n => (n : Int))
  | _ => (js_digits l).map (fun n => (n : Int))

/-- Errors `resolve` can end with: a propagated exception (hard error), or
the `vscode.RemoteAuthorityResolverError.TemporarilyNotAvailable` thrown on
the final line (the retryable-unavailable class). -/
inductive ResolveErr where
  | hard (msg : String)
  | temporarilyNotAvailable (msg : String)
  deriving DecidableEq, Repr

/-- Outcomes of the guest operations `resolve` performs, in program order.
`Except.error` means the awaited call threw. `server_binary_exists` is the
`Bool` the `is_file` probe would resolve to. -/
structure ResolveEnv where
  first_attempt : Except String String
  mkdir_res : Except String Unit
  write_res : Except String Unit
  chmod_res : Except String Unit
  server_binary_exists : Bool
  download_res : Except String (List Nat)
  install_res : Except String Unit
  second_attempt : Except String String

/-- Which side-effecting steps `resolve` performed. -/
structure ResolveActions where
  deployed : Bool
  downloaded : Bool
  installed : Bool
  retried : Bool
  deriving DecidableEq, Repr

/-- The condition of `if (!guest.is_file(server_command_path))` in
`RemoteAuthorityResolver.resolve`: the call is **not** awaited, so the test
negates a pending `Promise` object. Every object is truthy in JavaScript,
hence the negation is `false`, whatever the probe would have answered. -/
def js_not_of_unawaited_promise : Bool := false

/-- The tail of `resolve` shared by both paths of the install conditional:
run `synchronized-start` once more, parse its stdout; a number resolves to
`("localhost", port)`, anything else throws `TemporarilyNotAvailable`. -/
def resolve_second (env : ResolveEnv) (acts : ResolveActions) :
    Except ResolveErr (String × Int) × ResolveActions :=
  match env.second_attempt with
  | .error e => (.error (.hard e), { acts with retried := true })
  | .ok out =>
    match js_parseInt out with
    | some p => (.ok ("localhost", p), { acts with retried := true })
    | none => (.error (.temporarilyNotAvailable "failed to launch server in guest distro"),
        { acts with retried := true })

/-- Model of `RemoteAuthorityResolver.resolve` of the resolver module, after the
authority has been parsed and the platform detected: optimistic
`synchronized-start` first (its failure caught, leaving `port = NaN`); on a
non-numeric result, deploy the control script (`mkdir -p`, write,
`chmod +x`), test `!guest.is_file(...)` — always `false`, the promise not
being awaited — download and install only under that dead test, and retry
`synchronized-start` once. A numeric port from either attempt yields
`ResolvedAuthority("localhost", port)`; otherwise
`TemporarilyNotAvailable` is thrown. Exceptions of awaited fallback steps
propagate as hard errors. -/
def resolve (env : ResolveEnv) : Except ResolveErr (String × Int) × ResolveActions :=
  let no_acts : ResolveActions :=
    { deployed := false, downloaded := false, installed := false, retried := false }
  let port0 : Option Int :=
    match env.first_attempt with
    | .ok out => js_parseInt out
    | .error _ => none
  match port0 with
  | some p => (.ok ("localhost", p), no_acts)
  | none =>
    match env.mkdir_res with
    | .error e => (.error (.hard e), no_acts)
    | .ok _ =>
      match env.write_res with
      | .error e => (.error (.hard e), no_acts)
      | .ok _ =>
        match env.chmod_res with
        | .error e => (.error (.hard e), no_acts)
        | .ok _ =>
          let acts := { no_acts with deployed := true }
          if js_not_of_unawaited_promise then
            match env.download_res with
            | .error e => (.error (.hard e), { acts with downloaded := true })
            | .ok _ =>
              match env.install_res with
              | .error e =>
                (.error (.hard e), { acts with downloaded := true, installed := true })
              | .ok _ =>
                resolve_second env { acts with downloaded := true, installed := true }
          else
            resolve_second env acts

/-- The optimistic first attempt produced no numeric port (it threw, or its
output does not parse as a number). -/
def first_no_port (env : ResolveEnv) : Prop :=
  ∀ o, env.first_attempt = .ok o → js_parseInt o = none

/-- C1: provided the fallback's auxiliary steps do not throw (`mkdir`,
script write, `chmod` succeed and the retried `synchronized-start` returns),
`resolve` either succeeds with host `"localhost"` paired with a port parsed
from a controller attempt's stdout, or — exactly when both attempts fail to
yield a numeric port — fails with the distinguishable
`TemporarilyNotAvailable` (retryable-unavailable) error rather than a hard
error. -/
theorem resolve_localhost_or_retryable (env : ResolveEnv)
    (hm : env.mkdir_res = .ok ()) (hw : env.write_res = .ok ())
    (hc : env.chmod_res = .ok ()) (out2 : String)
    (h2 : env.second_attempt = .ok out2) :
    (∃ p : Int, (resolve env).1 = .ok ("localhost", p) ∧
      ((∃ o, env.first_attempt = .ok o ∧ js_parseInt o = some p) ∨
        js_parseInt out2 = some p)) ∨
    (first_no_port env ∧ js_parseInt out2 = none ∧
      (resolve env).1 =
        .error (.temporarilyNotAvailable "failed to launch server in guest distro")) := by
  rcases h1 : env.first_attempt with e1 | o1
  · rcases hp2 : js_parseInt out2 with _ | p2
    · right
      refine ⟨fun o ho => absurd (h1 ▸ ho) (by simp), rfl, ?_⟩
      simp [resolve, h1, hm, hw, hc, js_not_of_unawaited_promise, resolve_second, h2, hp2]
    · left
      refine ⟨p2, ?_, Or.inr rfl⟩
      simp [resolve, h1, hm, hw, hc, js_not_of_unawaited_promise, resolve_second, h2, hp2]
  · rcases hp1 : js_parseInt o1 with _ | p1
    · rcases hp2 : js_parseInt out2 with _ | p2
      · right
        refine ⟨fun o ho => by rw [h1] at ho; injection ho with ho; rwa [← ho], rfl, ?_⟩
        simp [resolve, h1, hp1, hm, hw, hc, js_not_of_unawaited_promise,
          resolve_second, h2, hp2]
      · left
        refine ⟨p2, ?_, Or.inr rfl⟩
        simp [resolve, h1, hp1, hm, hw, hc, js_not_of_unawaited_promise,
          resolve_second, h2, hp2]
    · left
      refine ⟨p1, ?_, Or.inl ⟨o1, rfl, hp1⟩⟩
      simp [resolve, h1, hp1]

/-- An environment for a target that was never warmed: the optimistic
attempt reports `NOT RUNNING` (no script deployed would actually throw, but
a non-numeric output exercises the same path), the server binary is absent,
the download would succeed, and the retried start reports `ERROR`. -/
def env_fail : ResolveEnv :=
  { first_attempt := .ok "NOT RUNNING\n",
    mkdir_res := .ok (),
    write_res := .ok (),
    chmod_res := .ok (),
    server_binary_exists := false,
    download_res := .ok [31, 139, 8],
    install_res := .ok (),
    second_attempt := .ok "ERROR\n" }

/-- Witness for C1: with both attempts non-numeric and the auxiliary steps
succeeding, `resolve` fails with the retryable-unavailable error. -/
theorem resolve_localhost_or_retryable_witness :
    (∃ p : Int, (resolve env_fail).1 = .ok ("localhost", p) ∧
      ((∃ o, env_fail.first_attempt = .ok o ∧ js_parseInt o = some p) ∨
        js_parseInt "ERROR\n" = some p)) ∨
    (first_no_port env_fail ∧ js_parseInt "ERROR\n" = none ∧
      (resolve env_fail).1 =
        .error (.temporarilyNotAvailable "failed to launch server in guest distro")) :=
  resolve_localhost_or_retryable env_fail rfl rfl rfl "ERROR\n" rfl

/-- C3 (bug evidence): for a target whose first attempt fails and whose
server binary is absent — exactly the situation in which the spec requires
the artifact to be downloaded and fed to `install` — `resolve` deploys the
script and retries, but performs neither the download nor the install: the
`is_file` probe is not awaited, so `!promise` is always `false` and the
install branch is dead code. -/
theorem resolve_skips_install_probe :
    env_fail.server_binary_exists = false ∧
    (resolve env_fail).2.deployed = true ∧
    (resolve env_fail).2.retried = true ∧
    (resolve env_fail).2.downloaded = false ∧
    (resolve env_fail).2.installed = false := by
  decide
